import Mathlib

/-!
Verification development of pos-printer (`main.go`).

The program builds a fixed ticket, resolves a template path, parses the
template file and executes it against the ticket on standard output.

Layout of this file:

* the data model (`Ticket`, `Tag`, `PaymentInformation`, `Payment`, `Order`);
* the pieces of the Go standard library that `createTicket` calls
  (`time.Date`, `Time.Format` for the two layouts used, `Time.IsZero`);
* the process model: what a run can observe of its surroundings (`World`),
  the template engine interface (`Engine`), the state of a running process
  (`Proc`) and its two ways of leaving a function (`Step`);
* the functions of `main.go`: `createTicket`, `defaultTemplatePath`,
  `loadTemplate`, the `Run` closure and `main`;
* a description of the template engine on a class of simple templates
  (`parseTemplate`, `execNodes`), what it means for an engine to behave as
  described (`RendersFragment`), and one such engine (`fragment`) for
  concrete runs;
* the theorems, C1 to C10.
-/

namespace PosPrinter

/-! ## Library: package `time` -/

/-- Go `time.Location` as produced by `time.UTC` and `time.FixedZone`:
a zone name and an offset in seconds east of UTC. -/
structure Location where
  name : String
  offset : Int
  deriving DecidableEq

/-- Go `time.UTC`. -/
def Location.utc : Location := ⟨"UTC", 0⟩

/-- Go `time.FixedZone(name, offset)`. -/
def fixedZone (name : String) (offset : Int) : Location := ⟨name, offset⟩

/-- Go `time.Time`, kept as the civil reading of the instant in its own
location (what `Time.Date()` and `Time.Clock()` return) together with that
location. -/
structure Time where
  year : Int
  month : Nat
  day : Nat
  hour : Nat
  minute : Nat
  second : Nat
  nanosecond : Nat
  loc : Location
  deriving DecidableEq

/-- Go `time.Date(year, month, day, hour, min, sec, nsec, loc)`.  Every call
in `createTicket` passes values that are already in range, where the
normalisation that `time.Date` performs is the identity. -/
def timeDate (year : Int) (month day hour min sec nsec : Nat) (loc : Location) : Time :=
  ⟨year, month, day, hour, min, sec, nsec, loc⟩

/-- Go `time.October`. -/
def october : Nat := 10

/-- Decimal digits of a natural number, most significant first. -/
def digitsOf (n : Nat) : List Char := (Nat.toDigits 10 n)

/-- Go `time.appendInt(b, x, width)`: decimal, zero-padded on the left up to
`width` digits, with a leading minus sign for negative values. -/
def appendInt (x : Int) (width : Nat) : String :=
  let ds := digitsOf x.natAbs
  let body := List.replicate (width - ds.length) '0' ++ ds
  String.mk (if x < 0 then '-' :: body else body)

/-- Go `t.Format("2006-01-02")`: four-digit year, two-digit month and day. -/
def Time.formatDate (t : Time) : String :=
  appendInt t.year 4 ++ "-" ++ appendInt t.month 2 ++ "-" ++ appendInt t.day 2

/-- Go `t.Format("15:04:05")`: two-digit hour, minute and second. -/
def Time.formatClock (t : Time) : String :=
  appendInt t.hour 2 ++ ":" ++ appendInt t.minute 2 ++ ":" ++ appendInt t.second 2

/-- Go `time.isLeap`. -/
def isLeap (year : Int) : Bool :=
  year % 4 == 0 && (year % 100 != 0 || year % 400 == 0)

/-- Go `time.daysBefore`: days in a non-leap year before the given month
(1-based). -/
def daysBefore (month : Nat) : Nat :=
  [0, 31, 59, 90, 120, 151, 181, 212, 243, 273, 304, 334, 365].getD (month - 1) 0

/-- Days from January 1 of year 1 to January 1 of `year` in the proleptic
Gregorian calendar. -/
def daysSinceYearOne (year : Int) : Int :=
  let y := year - 1
  365 * y + y / 4 - y / 100 + y / 400

/-- Seconds elapsed since January 1, year 1, 00:00:00 UTC: the quantity Go
keeps in a `Time` (its `sec()`), computed as `time.Date` does and shifted by
the zone offset. -/
def Time.absSeconds (t : Time) : Int :=
  let leapDay : Int := if isLeap t.year && decide (3 ≤ t.month) then 1 else 0
  let days : Int := daysSinceYearOne t.year + daysBefore t.month + leapDay + ((t.day : Int) - 1)
  days * 86400 + (t.hour * 3600 + t.minute * 60 + t.second : Nat) - t.loc.offset

/-- Go `t.IsZero()`: the instant January 1, year 1, 00:00:00 UTC. -/
def Time.isZero (t : Time) : Bool :=
  t.absSeconds == 0 && t.nanosecond == 0

/-! ## Data model -/

/-- Go `Tag`. -/
structure Tag where
  Pax : Int
  PaxTime : Time
  deriving DecidableEq

/-- Go `PaymentInformation`. -/
structure PaymentInformation where
  RefNo : Int
  RefTime : Time
  deriving DecidableEq

/-- Go `Payment`. -/
structure Payment where
  Name : String
  Tendered : String
  PaymentInformation : PaymentInformation
  deriving DecidableEq

/-- Go `Order`. -/
structure Order where
  Name : String
  Quantity : String
  Price : String
  deriving DecidableEq

/-- Go `Ticket`. -/
structure Ticket where
  LoginUser : String
  Terminal : String
  Date : String
  Time : String
  PaymentDate : String
  PaymentTime : String
  PaymentType : String
  Tag : Tag
  Payments : List Payment
  Orders : List Order
  deriving DecidableEq

/-- Go `createTicket`.  The one reading of the wall clock, `time.Now()`, is
the argument `now`. -/
def createTicket (now : Time) : Ticket :=
  { LoginUser := "betasve"
    Terminal := "pos terminal"
    Date := (timeDate 2024 october 31 0 0 0 0 Location.utc).formatDate
    Time := now.formatClock
    PaymentDate := (timeDate 2024 october 31 17 35 24 0 (fixedZone "GMT" 2)).formatDate
    PaymentTime := (timeDate 2024 october 31 17 35 24 0 (fixedZone "GMT" 2)).formatClock
    PaymentType := "credit_card"
    Tag :=
      { Pax := 100
        PaxTime := timeDate 2024 october 31 17 35 24 0 (fixedZone "GMT" 2) }
    Payments :=
      [ { Name := "Payment 1"
          Tendered := "is tendered"
          PaymentInformation :=
            { RefNo := 101
              RefTime := timeDate 2024 october 31 17 35 24 0 (fixedZone "GMT" 2) } } ]
    Orders :=
      [ { Name := "Fried beans"
          Quantity := "3"
          Price := "1.99" } ] }

/-! ## Process model -/

/-- What a run can observe of its surroundings: the result of
`os.UserHomeDir()`, the result of reading each file (the `os.ReadFile` inside
`template.ParseFiles`), the reading of the wall clock, and the platform's
`filepath.Join` on two elements.  Errors are kept as their `Error()` text. -/
structure World where
  userHomeDir : Except String String
  readFile : String → Except String String
  now : Time
  pathJoin : String → String → String

/-- The template engine (`html/template`), taken as a parameter.
`parse filename text` is `template.New(filepath.Base(filename)).Parse(text)`;
`execute tmpl data` is `tmpl.Execute(wr, data)`, returning the bytes written
to `wr` (also those written before a failure) and the returned error. -/
structure Engine where
  Template : Type
  parse : String → String → Except String Template
  execute : Template → Ticket → String × Option String

/-- State of the running process: the bytes written so far to standard output
and to standard error, and, as a record of the calls made, the file names
handed to `template.ParseFiles` and the data handed to `Template.Execute`. -/
structure Proc where
  stdout : String
  stderr : String
  parsed : List String
  rendered : List Ticket
  deriving DecidableEq

/-- The process at start-up. -/
def Proc.start : Proc := ⟨"", "", [], []⟩

/-- Writes on standard output (`fmt.Println` and `fmt.Printf` write there). -/
def Proc.print (p : Proc) (s : String) : Proc :=
  { p with stdout := p.stdout ++ s }

/-- How a function of the program is left: it returns a value, or `os.Exit`
was called with a status code. -/
inductive Step (α : Type) where
  | ret (a : α) (p : Proc)
  | exit (code : Nat) (p : Proc)

/-- A finished run: the exit status of the process and its final state. -/
structure Finished where
  code : Nat
  proc : Proc
  deriving DecidableEq

/-- Text written by `fmt.Println(operands...)`: the operands separated by
single spaces, then a newline. -/
def fmtPrintln (operands : List String) : String :=
  " ".intercalate operands ++ "\n"

/-- The three flag variables of `main`. -/
structure Flags where
  templatePath : String
  outputPath : String
  verbose : Bool
  deriving DecidableEq

/-- What `rootCmd.Execute()` does with the command line: it accepts it, sets
the flag variables and calls `Run`; or it serves a help request itself and
returns `nil`; or it rejects the command line, writes its own diagnostics on
standard error and returns an error. -/
inductive Dispatch where
  | run (flags : Flags)
  | help (text : String)
  | rejected (diagnostics : String) (err : String)

/-! ## The program -/

/-- Go `defaultTemplatePath`. -/
def defaultTemplatePath (w : World) (p : Proc) : Step String :=
  match w.userHomeDir with
  | .error err => .exit 1 (p.print (fmtPrintln ["Error getting home directory:", err]))
  | .ok homeDir => .ret (w.pathJoin homeDir "default_template") p

/-- Go `template.ParseFiles(filename)`: reads the file, then parses its
text. -/
def parseFiles (E : Engine) (w : World) (filename : String) : Except String E.Template :=
  match w.readFile filename with
  | .error err => .error err
  | .ok text => E.parse filename text

/-- Go `loadTemplate`. -/
def loadTemplate (E : Engine) (w : World) (templatePath : String) (p : Proc) :
    Step E.Template :=
  let resolved : Step String :=
    if templatePath = "" then defaultTemplatePath w p else .ret templatePath p
  match resolved with
  | .exit code p => .exit code p
  | .ret templatePath p =>
    let p := { p with parsed := p.parsed ++ [templatePath] }
    match parseFiles E w templatePath with
    | .error err => .exit 1 (p.print ("Error reading template file: " ++ err ++ "\n"))
    | .ok tmpl => .ret tmpl p

/-- The `Run` closure of `rootCmd` in Go `main`. -/
def runCommand (E : Engine) (w : World) (flags : Flags) (p : Proc) : Step Unit :=
  let ticket := createTicket w.now
  match loadTemplate E w flags.templatePath p with
  | .exit code p => .exit code p
  | .ret parsedTemplate p =>
    let result := E.execute parsedTemplate ticket
    let p := { p with stdout := p.stdout ++ result.1, rendered := p.rendered ++ [ticket] }
    match result.2 with
    | some err => .ret () (p.print (fmtPrintln ["Error rendering template:", err]))
    | none => .ret () p

/-- Go `main`. -/
def main (E : Engine) (w : World) (d : Dispatch) : Finished :=
  match d with
  | .rejected diagnostics err =>
    ⟨1, { Proc.start with stderr := diagnostics }.print (fmtPrintln [err])⟩
  | .help text => ⟨0, Proc.start.print text⟩
  | .run flags =>
    match runCommand E w flags Proc.start with
    | .exit code p => ⟨code, p⟩
    | .ret _ p => ⟨0, p⟩

/-! ## A fragment of the template engine

A description of what `html/template` does on a small class of templates:
literal text without markup (no `<`, so that the escaper stays in the HTML
text context and copies the text), field actions such as `{{.LoginUser}}` or
`{{.Tag.Pax}}` with a string or integer value, and
`{{range .Orders}} ... {{end}}` loops over the two sequences of a `Ticket`.
Execution writes as it goes and stops at the first failing action, as
`text/template` does.

Whatever lies outside this class gets the result `unmodelled`: the
description then says nothing about what the library does.  `RendersFragment`
states what it means for an engine to behave as described, and `fragment` is
one such engine, used for concrete runs. -/

/-- The values a template action can reach from a `Ticket`. -/
inductive Value where
  | ticket (t : Ticket)
  | tag (t : Tag)
  | payment (p : Payment)
  | paymentInformation (i : PaymentInformation)
  | order (o : Order)
  | str (s : String)
  | int (n : Int)
  | time (t : Time)
  | payments (ps : List Payment)
  | orders (os : List Order)

/-- Go name of the type of a value, as it appears in execution errors. -/
def Value.typeName : Value → String
  | .ticket _ => "main.Ticket"
  | .tag _ => "main.Tag"
  | .payment _ => "main.Payment"
  | .paymentInformation _ => "main.PaymentInformation"
  | .order _ => "main.Order"
  | .str _ => "string"
  | .int _ => "int"
  | .time _ => "time.Time"
  | .payments _ => "[]main.Payment"
  | .orders _ => "[]main.Order"

/-- Result of a step of the description: a value, an error that the library
reports (with the final clause of its message), or `unmodelled` when the step
leaves the described class. -/
inductive Outcome (α : Type) where
  | ok (a : α)
  | error (err : String)
  | unmodelled

/-- The failure of a field lookup. -/
def noField (name : String) (v : Value) : Outcome Value :=
  .error ("can\x27t evaluate field " ++ name ++ " in type " ++ v.typeName)

/-- Field lookup `.name` on a value.  The five structs of the program have
their exported fields and no methods, so any other name fails on them, as
does any lookup on a string, an integer or a sequence.  A `time.Time` has
methods, which a template may call: lookups on it are not described. -/
def Value.getField (v : Value) (name : String) : Outcome Value :=
  match v with
  | .ticket t =>
    if name = "LoginUser" then .ok (.str t.LoginUser)
    else if name = "Terminal" then .ok (.str t.Terminal)
    else if name = "Date" then .ok (.str t.Date)
    else if name = "Time" then .ok (.str t.Time)
    else if name = "PaymentDate" then .ok (.str t.PaymentDate)
    else if name = "PaymentTime" then .ok (.str t.PaymentTime)
    else if name = "PaymentType" then .ok (.str t.PaymentType)
    else if name = "Tag" then .ok (.tag t.Tag)
    else if name = "Payments" then .ok (.payments t.Payments)
    else if name = "Orders" then .ok (.orders t.Orders)
    else noField name v
  | .tag t =>
    if name = "Pax" then .ok (.int t.Pax)
    else if name = "PaxTime" then .ok (.time t.PaxTime)
    else noField name v
  | .payment p =>
    if name = "Name" then .ok (.str p.Name)
    else if name = "Tendered" then .ok (.str p.Tendered)
    else if name = "PaymentInformation" then .ok (.paymentInformation p.PaymentInformation)
    else noField name v
  | .paymentInformation i =>
    if name = "RefNo" then .ok (.int i.RefNo)
    else if name = "RefTime" then .ok (.time i.RefTime)
    else noField name v
  | .order o =>
    if name = "Name" then .ok (.str o.Name)
    else if name = "Quantity" then .ok (.str o.Quantity)
    else if name = "Price" then .ok (.str o.Price)
    else noField name v
  | .time _ => .unmodelled
  | _ => noField name v

/-- Evaluation of a field chain `.a.b.c` from the current value. -/
def evalPath (dot : Value) : List String → Outcome Value
  | [] => .ok dot
  | name :: rest =>
    match dot.getField name with
    | .ok v => evalPath v rest
    | .error err => .error err
    | .unmodelled => .unmodelled

/-- Replacement of one character by `html/template`'s escaper for the HTML
text context (its `htmlReplacementTable`). -/
def htmlReplacement (c : Char) : List Char :=
  if c = Char.ofNat 0 then [Char.ofNat 0xFFFD]
  else if c = '"' then "&#34;".data
  else if c = '&' then "&amp;".data
  else if c = Char.ofNat 39 then "&#39;".data
  else if c = '+' then "&#43;".data
  else if c = '<' then "&lt;".data
  else if c = '>' then "&gt;".data
  else [c]

/-- Escaper of `html/template` for the HTML text context. -/
def htmlEscape (s : String) : String :=
  String.mk (s.data.flatMap htmlReplacement)

/-- Decimal text of an integer, as `fmt` prints it. -/
def sprintInt (x : Int) : String :=
  String.mk ((if x < 0 then ['-'] else []) ++ digitsOf x.natAbs)

/-- Text written for the value of an action in the HTML text context.
Strings are escaped, integers are printed in decimal; the printing of
structs, sequences and times is not described. -/
def printValue : Value → Option String
  | .str s => some (htmlEscape s)
  | .int n => some (sprintInt n)
  | _ => none

/-- The elements a `range` action iterates over, for the two sequences of a
`Ticket`; iteration over any other value is not described. -/
def elements : Value → Option (List Value)
  | .payments ps => some (ps.map Value.payment)
  | .orders os => some (os.map Value.order)
  | _ => none

/-- Literal text that keeps the escaper in the HTML text context. -/
def isPlain (s : String) : Bool := s.data.all (fun c => c != '<')

/-- Parse tree of a template of the described class. -/
inductive Node where
  | text (s : String) (plain : isPlain s = true)
  | field (path : List String)
  | range (path : List String) (body : List Node)

/-- What an execution has done: it ran to the end (`done`), it stopped with
an error (`failed`), or it reached something that is not described
(`unmodelled`); in each case `out` is the text written up to there. -/
inductive Rendering where
  | done (out : String)
  | failed (out : String) (err : String)
  | unmodelled (out : String)
  deriving DecidableEq

/-- The rendering that follows the writing of `written`. -/
def Rendering.after (written : String) : Rendering → Rendering
  | .done out => .done (written ++ out)
  | .failed out err => .failed (written ++ out) err
  | .unmodelled out => .unmodelled (written ++ out)

/-- The text written by an execution. -/
def Rendering.out : Rendering → String
  | .done out => out
  | .failed out _ => out
  | .unmodelled out => out

/-- Runs `f` on each element in sequence order, and stops after the first
element on which `f` does not run to the end. -/
def runEach {α : Type} (f : α → Rendering) : List α → Rendering
  | [] => .done ""
  | v :: vs =>
    match f v with
    | .done out => (runEach f vs).after out
    | stopped => stopped

mutual
/-- Execution of one node with `dot` as the current value. -/
def execNode (dot : Value) : Node → Rendering
  | .text s _ => .done s
  | .field path =>
    match evalPath dot path with
    | .error err => .failed "" err
    | .unmodelled => .unmodelled ""
    | .ok v =>
      match printValue v with
      | none => .unmodelled ""
      | some s => .done s
  | .range path body =>
    match evalPath dot path with
    | .error err => .failed "" err
    | .unmodelled => .unmodelled ""
    | .ok v =>
      match elements v with
      | none => .unmodelled ""
      | some vs => runEach (fun elem => execNodes elem body) vs
/-- Execution of a sequence of nodes, stopping at the first node that does
not run to the end. -/
def execNodes (dot : Value) : List Node → Rendering
  | [] => .done ""
  | n :: ns =>
    match execNode dot n with
    | .done out => (execNodes dot ns).after out
    | stopped => stopped
end

/-- Lexical items of a template: literal text, a field action, the opening
of a range loop, and `{{end}}`. -/
inductive Tok where
  | text (s : String)
  | field (path : List String)
  | rangeOpen (path : List String)
  | close

/-- Space characters skipped inside an action. -/
def isSpace (c : Char) : Bool :=
  c = ' ' || c = '\t' || c = '\r' || c = '\n'

/-- Removes the spaces at both ends. -/
def trimSpaces (cs : List Char) : List Char :=
  ((cs.dropWhile isSpace).reverse.dropWhile isSpace).reverse

/-- Splits at every dot. -/
def splitDots : List Char → List (List Char)
  | [] => [[]]
  | c :: cs =>
    match splitDots cs with
    | [] => [[c]]
    | seg :: segs => if c = '.' then [] :: seg :: segs else (c :: seg) :: segs

/-- A field name: an ASCII letter or underscore followed by ASCII letters,
digits and underscores. -/
def isFieldName (cs : List Char) : Bool :=
  match cs with
  | [] => false
  | c :: rest => (c.isAlpha || c = '_') && rest.all (fun d => d.isAlphanum || d = '_')

/-- Reads a field chain: `.` is the current value, `.a.b` a chain of field
lookups.  Anything else is not described. -/
def parsePath (cs : List Char) : Option (List String) :=
  match cs with
  | '.' :: rest =>
    if rest.isEmpty then some []
    else if (splitDots rest).all isFieldName then some ((splitDots rest).map String.mk)
    else none
  | _ => none

/-- Reads the text between `{{` and `}}`: `end`, `range` with a field chain,
or a field chain.  Anything else is not described. -/
def parseAction (cs : List Char) : Option Tok :=
  let body := trimSpaces cs
  if body = "end".data then some Tok.close
  else if "range ".data.isPrefixOf body then
    (parsePath (trimSpaces (body.drop 6))).map Tok.rangeOpen
  else (parsePath body).map Tok.field

/-- Emits the pending literal text, if any, in front of `toks`. -/
def flushText (pending : List Char) (toks : List Tok) : List Tok :=
  if pending.isEmpty then toks else Tok.text (String.mk pending.reverse) :: toks

/-- Lexer: cuts the template text at `{{` and `}}`.  `inAction` tells
whether the position is inside an action; `pending` holds, in reverse, the
characters read since the last delimiter.  An action that is not described
makes the whole result `unmodelled`; text that ends inside an action is the
error "unclosed action". -/
def lexTemplate : Bool → List Char → List Char → Outcome (List Tok)
  | false, pending, [] => .ok (flushText pending [])
  | true, _, [] => .error "unclosed action"
  | false, pending, '\x7b' :: '\x7b' :: rest =>
    match lexTemplate true [] rest with
    | .ok toks => .ok (flushText pending toks)
    | stopped => stopped
  | false, pending, c :: rest => lexTemplate false (c :: pending) rest
  | true, pending, '\x7d' :: '\x7d' :: rest =>
    match parseAction pending.reverse, lexTemplate false [] rest with
    | none, _ => .unmodelled
    | some tok, .ok toks => .ok (tok :: toks)
    | some _, stopped => stopped
  | true, pending, c :: rest => lexTemplate true (c :: pending) rest

/-- Builds the parse tree from the lexical items.  `stack` holds, for every
range loop still open, its field chain and the nodes that precede it (in
reverse); `current` holds, in reverse, the nodes of the innermost open
body.  Text with markup is not described. -/
def buildNodes (stack : List (List String × List Node)) (current : List Node) :
    List Tok → Outcome (List Node)
  | [] => if stack.isEmpty then .ok current.reverse else .error "unexpected EOF"
  | .text s :: toks =>
    if plain : isPlain s = true then buildNodes stack (Node.text s plain :: current) toks
    else .unmodelled
  | .field path :: toks => buildNodes stack (Node.field path :: current) toks
  | .rangeOpen path :: toks => buildNodes ((path, current) :: stack) [] toks
  | .close :: toks =>
    match stack with
    | [] => .error "unexpected \x7b\x7bend\x7d\x7d"
    | (path, outer) :: stack => buildNodes stack (Node.range path current.reverse :: outer) toks

/-- Parsing of a template text: its tree, the error that the library
reports, or `unmodelled`. -/
def parseTemplate (text : String) : Outcome (List Node) :=
  match lexTemplate false [] text.data with
  | .ok toks => buildNodes [] [] toks
  | .error err => .error err
  | .unmodelled => .unmodelled

/-- The result of `Template.Execute` for a rendering.  For an execution that
is not described this engine stops with an error of its own. -/
def Rendering.toResult : Rendering → String × Option String
  | .done out => (out, none)
  | .failed out err => (out, some err)
  | .unmodelled out => (out, some "execution is not described")

/-- An engine that behaves as described, for concrete runs.  On a template
text that is not described it reports an error of its own. -/
def fragment : Engine where
  Template := List Node
  parse := fun _ text =>
    match parseTemplate text with
    | .ok nodes => .ok nodes
    | .error err => .error err
    | .unmodelled => .error "template is not described"
  execute := fun tmpl ticket => (execNodes (Value.ticket ticket) tmpl).toResult

/-! ## Concrete surroundings for example runs -/

/-- A clock reading: 3 November 2026, 09:05:07 UTC. -/
def morning : Time := timeDate 2026 11 3 9 5 7 0 Location.utc

/-- A clock reading on another day and in another zone with the same hour,
minute and second as `morning`. -/
def otherMorning : Time := timeDate 2027 1 15 9 5 7 250 (fixedZone "CET" 3600)

/-- Joining of two clean path elements on a Unix system. -/
def unixJoin (dir name : String) : String := dir ++ "/" ++ name

/-- A file system holding four template files: one printing the login user,
one looping over the orders, one naming a field that `Ticket` does not have,
and one with an action that is never closed. -/
def sampleFiles (path : String) : Except String String :=
  if path = "/srv/pos/user.tmpl" then .ok "user: \x7b\x7b.LoginUser\x7d\x7d\n"
  else if path = "/srv/pos/orders.tmpl" then
    .ok "\x7b\x7brange .Orders\x7d\x7d\x7b\x7b.Quantity\x7d\x7d x \x7b\x7b.Name\x7d\x7d\n\x7b\x7bend\x7d\x7d"
  else if path = "/srv/pos/nofield.tmpl" then
    .ok "total \x7b\x7b.Total\x7d\x7d for \x7b\x7b.LoginUser\x7d\x7d"
  else if path = "/srv/pos/unclosed.tmpl" then .ok "user: \x7b\x7b.LoginUser"
  else .error ("open " ++ path ++ ": no such file or directory")

/-- A machine with a home directory (holding no `default_template`). -/
def sampleWorld : World :=
  { userHomeDir := .ok "/home/pos"
    readFile := sampleFiles
    now := morning
    pathJoin := unixJoin }

/-- The same machine for a user whose home directory cannot be determined. -/
def homelessWorld : World :=
  { sampleWorld with userHomeDir := .error "$HOME is not defined" }

/-! ## Vocabulary of the statements -/

/-- The text `needle` occurs in `hay`. -/
def containsText (hay needle : String) : Prop := needle.data <:+: hay.data

instance (hay needle : String) : Decidable (containsText hay needle) := by
  unfold containsText; infer_instance

/-- Relates a run to the template path it works with: the `--template` value
when that is not empty, else `default_template` joined to the home directory
(which then has to be known). -/
def ResolvesTo (w : World) (flags : Flags) (path : String) : Prop :=
  (flags.templatePath ≠ "" ∧ path = flags.templatePath) ∨
  (flags.templatePath = "" ∧ ∃ home, w.userHomeDir = .ok home ∧
    path = w.pathJoin home "default_template")

/-! ## Auxiliary facts -/

theorem fmtPrintln_pair (a b : String) : fmtPrintln [a, b] = a ++ " " ++ b ++ "\n" := by
  simp [fmtPrintln, String.intercalate, String.intercalate.go]

/-- A run whose template path resolves to `path` hands exactly `path` to
the parser and goes on according to the outcome of parsing. -/
theorem main_run_of_resolves (E : Engine) (w : World) (flags : Flags) (path : String)
    (hpath : ResolvesTo w flags path) :
    main E w (.run flags) =
      match parseFiles E w path with
      | .error err =>
        ⟨1, ⟨"Error reading template file: " ++ err ++ "\n", "", [path], []⟩⟩
      | .ok tmpl =>
        match (E.execute tmpl (createTicket w.now)).2 with
        | some err =>
          ⟨0, ⟨(E.execute tmpl (createTicket w.now)).1 ++
                fmtPrintln ["Error rendering template:", err], "", [path],
                [createTicket w.now]⟩⟩
        | none =>
          ⟨0, ⟨(E.execute tmpl (createTicket w.now)).1, "", [path],
                [createTicket w.now]⟩⟩ := by
  rcases hpath with ⟨hne, rfl⟩ | ⟨hempty, home, hhome, rfl⟩
  · simp only [main, runCommand, loadTemplate, if_neg hne, Proc.start, Proc.print]
    cases hp : parseFiles E w flags.templatePath with
    | error err => simp
    | ok tmpl =>
      cases hx : (E.execute tmpl (createTicket w.now)).2 with
      | none => simp [hx]
      | some err => simp [hx]
  · simp only [main, runCommand, loadTemplate, if_pos hempty, defaultTemplatePath, hhome,
      Proc.start, Proc.print]
    cases hp : parseFiles E w (w.pathJoin home "default_template") with
    | error err => simp
    | ok tmpl =>
      cases hx : (E.execute tmpl (createTicket w.now)).2 with
      | none => simp [hx]
      | some err => simp [hx]

/-! ## Template path resolution and template loading -/

/-- C1: a non-empty template path is handed to the template parser unchanged,
whatever the result of looking up the home directory; for the empty path and
a home directory `home` that can be determined, the parser is handed
`filepath.Join(home, "default_template")`. -/
theorem template_path_resolution (E : Engine) (w : World) (flags : Flags) :
    (flags.templatePath ≠ "" →
      (main E w (.run flags)).proc.parsed = [flags.templatePath]) ∧
    (∀ home, flags.templatePath = "" → w.userHomeDir = .ok home →
      (main E w (.run flags)).proc.parsed = [w.pathJoin home "default_template"]) := by
  constructor
  · intro hne
    rw [main_run_of_resolves E w flags flags.templatePath (Or.inl ⟨hne, rfl⟩)]
    split
    · rfl
    · split <;> rfl
  · intro home hempty hhome
    rw [main_run_of_resolves E w flags _ (Or.inr ⟨hempty, home, hhome, rfl⟩)]
    split
    · rfl
    · split <;> rfl

/-- Witness of C1: an explicit path on a machine without a usable home
directory, and the empty path on a machine with home directory
`/home/pos`. -/
theorem template_path_resolution_witness :
    ("/srv/pos/user.tmpl" ≠ "" ∧
      (main fragment homelessWorld (.run ⟨"/srv/pos/user.tmpl", "", false⟩)).proc.parsed =
        ["/srv/pos/user.tmpl"]) ∧
    (sampleWorld.userHomeDir = .ok "/home/pos" ∧
      (main fragment sampleWorld (.run ⟨"", "out.txt", true⟩)).proc.parsed =
        [unixJoin "/home/pos" "default_template"]) :=
  ⟨⟨by decide,
    (template_path_resolution fragment homelessWorld ⟨"/srv/pos/user.tmpl", "", false⟩).1
      (by decide)⟩,
   ⟨rfl,
    (template_path_resolution fragment sampleWorld ⟨"", "out.txt", true⟩).2 "/home/pos"
      rfl rfl⟩⟩

/-- C2: when the file at the resolved template path cannot be read (it is
missing) or its text does not parse, the run prints the message "Error
reading template file: ..." with the error, ends with exit code 1, and has
executed no template: nothing else is on standard output. -/
theorem parse_failure_is_fatal (E : Engine) (w : World) (flags : Flags)
    (path err : String) (hpath : ResolvesTo w flags path)
    (hfail : w.readFile path = .error err ∨
      ∃ text, w.readFile path = .ok text ∧ E.parse path text = .error err) :
    (main E w (.run flags)).code = 1 ∧
    (main E w (.run flags)).proc.stdout = "Error reading template file: " ++ err ++ "\n" ∧
    (main E w (.run flags)).proc.rendered = [] := by
  have hparse : parseFiles E w path = .error err := by
    rcases hfail with h | ⟨text, h, h2⟩
    · simp [parseFiles, h]
    · simp [parseFiles, h, h2]
  rw [main_run_of_resolves E w flags path hpath, hparse]
  exact ⟨rfl, rfl, rfl⟩

/-- Witness of C2: no `--template` flag, home directory `/home/pos` with no
`default_template` in it; and an explicit path to a file whose action is
never closed. -/
theorem parse_failure_is_fatal_witness :
    ((main fragment sampleWorld (.run ⟨"", "", false⟩)).code = 1 ∧
      (main fragment sampleWorld (.run ⟨"", "", false⟩)).proc.stdout =
        "Error reading template file: " ++
          "open /home/pos/default_template: no such file or directory" ++ "\n" ∧
      (main fragment sampleWorld (.run ⟨"", "", false⟩)).proc.rendered = []) ∧
    ((main fragment sampleWorld (.run ⟨"/srv/pos/unclosed.tmpl", "", false⟩)).code = 1 ∧
      (main fragment sampleWorld (.run ⟨"/srv/pos/unclosed.tmpl", "", false⟩)).proc.stdout =
        "Error reading template file: " ++ "unclosed action" ++ "\n" ∧
      (main fragment sampleWorld (.run ⟨"/srv/pos/unclosed.tmpl", "", false⟩)).proc.rendered
        = []) :=
  ⟨parse_failure_is_fatal fragment sampleWorld ⟨"", "", false⟩
      "/home/pos/default_template" "open /home/pos/default_template: no such file or directory"
      (Or.inr ⟨rfl, "/home/pos", rfl, by decide⟩) (Or.inl (by rfl)),
   parse_failure_is_fatal fragment sampleWorld ⟨"/srv/pos/unclosed.tmpl", "", false⟩
      "/srv/pos/unclosed.tmpl" "unclosed action"
      (Or.inl ⟨by decide, rfl⟩)
      (Or.inr ⟨"user: \x7b\x7b.LoginUser", by rfl, by rfl⟩)⟩

/-- C3: when the template path is empty and the home directory cannot be
determined, the run prints "Error getting home directory: ..." with the
error, ends with exit code 1, and has handed nothing to the parser and
executed no template. -/
theorem home_directory_unavailable_is_fatal (E : Engine) (w : World) (flags : Flags)
    (err : String) (hempty : flags.templatePath = "") (hhome : w.userHomeDir = .error err) :
    main E w (.run flags) =
      ⟨1, ⟨"Error getting home directory:" ++ " " ++ err ++ "\n", "", [], []⟩⟩ := by
  simp [main, runCommand, loadTemplate, hempty, defaultTemplatePath, hhome, Proc.start,
    Proc.print, fmtPrintln_pair]

/-- Witness of C3: no `--template` flag for a user without a home
directory. -/
theorem home_directory_unavailable_is_fatal_witness :
    homelessWorld.userHomeDir = .error "$HOME is not defined" ∧
    main fragment homelessWorld (.run ⟨"", "", false⟩) =
      ⟨1, ⟨"Error getting home directory:" ++ " " ++ "$HOME is not defined" ++ "\n", "",
        [], []⟩⟩ :=
  ⟨rfl, home_directory_unavailable_is_fatal fragment homelessWorld ⟨"", "", false⟩
    "$HOME is not defined" rfl rfl⟩

/-! ## Template execution errors -/

/-- The parse tree of the sample file `/srv/pos/nofield.tmpl`. -/
def nofieldTemplate : List Node :=
  [Node.text "total " (by decide), Node.field ["Total"], Node.text " for " (by decide),
    Node.field ["LoginUser"]]

/-- C4: when the template at the resolved path parses and its execution
against the ticket returns an error, the run prints, after what the template
wrote, the message "Error rendering template: ..." which contains that error,
and ends with exit code 0. -/
theorem execution_failure_is_not_fatal (E : Engine) (w : World) (flags : Flags)
    (path text : String) (tmpl : E.Template) (out err : String)
    (hpath : ResolvesTo w flags path) (hread : w.readFile path = .ok text)
    (hparse : E.parse path text = .ok tmpl)
    (hexec : E.execute tmpl (createTicket w.now) = (out, some err)) :
    (main E w (.run flags)).code = 0 ∧
    (main E w (.run flags)).proc.stdout =
      out ++ ("Error rendering template:" ++ " " ++ err ++ "\n") ∧
    containsText ("Error rendering template:" ++ " " ++ err ++ "\n") err := by
  have hfiles : parseFiles E w path = .ok tmpl := by simp [parseFiles, hread, hparse]
  rw [main_run_of_resolves E w flags path hpath, hfiles]
  simp only [hexec, fmtPrintln_pair, true_and]
  simp only [containsText, String.data_append]
  exact List.infix_append _ _ _

/-- Witness of C4: the sample template that names the field `Total`, which
`Ticket` does not have. -/
theorem execution_failure_is_not_fatal_witness :
    (main fragment sampleWorld (.run ⟨"/srv/pos/nofield.tmpl", "", false⟩)).code = 0 ∧
    (main fragment sampleWorld (.run ⟨"/srv/pos/nofield.tmpl", "", false⟩)).proc.stdout =
      "total " ++ ("Error rendering template:" ++ " " ++
        "can\x27t evaluate field Total in type main.Ticket" ++ "\n") ∧
    containsText ("Error rendering template:" ++ " " ++
        "can\x27t evaluate field Total in type main.Ticket" ++ "\n")
      "can\x27t evaluate field Total in type main.Ticket" :=
  execution_failure_is_not_fatal fragment sampleWorld ⟨"/srv/pos/nofield.tmpl", "", false⟩
    "/srv/pos/nofield.tmpl" "total \x7b\x7b.Total\x7d\x7d for \x7b\x7b.LoginUser\x7d\x7d"
    nofieldTemplate "total " "can\x27t evaluate field Total in type main.Ticket"
    (Or.inl ⟨by decide, rfl⟩) (by rfl) (by rfl) (by rfl)

/-- C5, as stated, fails: in the run on the sample template that names the
missing field `Total`, execution writes "total " and returns an error, and
standard output then holds more than the rendered bytes, namely the error
message as well, while standard error stays empty. -/
theorem execution_error_message_lands_on_stdout :
    parseFiles fragment sampleWorld "/srv/pos/nofield.tmpl" = .ok nofieldTemplate ∧
    fragment.execute nofieldTemplate (createTicket sampleWorld.now) =
      ("total ", some "can\x27t evaluate field Total in type main.Ticket") ∧
    (main fragment sampleWorld (.run ⟨"/srv/pos/nofield.tmpl", "", false⟩)).proc.stdout =
      "total Error rendering template: can\x27t evaluate field Total in type main.Ticket\n" ∧
    (main fragment sampleWorld (.run ⟨"/srv/pos/nofield.tmpl", "", false⟩)).proc.stdout ≠
      "total " ∧
    (main fragment sampleWorld (.run ⟨"/srv/pos/nofield.tmpl", "", false⟩)).proc.stderr = "" :=
  ⟨by rfl, by rfl, by decide, by decide, by decide⟩

/-- C5, amended: the message reporting a template execution error is written
to standard output, after the bytes rendered by the template, and nothing is
written to standard error. -/
theorem execution_error_message_follows_rendered_bytes (E : Engine) (w : World)
    (flags : Flags) (path text : String) (tmpl : E.Template) (out err : String)
    (hpath : ResolvesTo w flags path) (hread : w.readFile path = .ok text)
    (hparse : E.parse path text = .ok tmpl)
    (hexec : E.execute tmpl (createTicket w.now) = (out, some err)) :
    (main E w (.run flags)).proc.stdout =
      out ++ ("Error rendering template:" ++ " " ++ err ++ "\n") ∧
    (main E w (.run flags)).proc.stderr = "" := by
  have hfiles : parseFiles E w path = .ok tmpl := by simp [parseFiles, hread, hparse]
  rw [main_run_of_resolves E w flags path hpath, hfiles]
  simp only [hexec, fmtPrintln_pair, and_self]

/-- Witness of amended C5: the default template of a home directory that
holds one, naming the field `Total`. -/
theorem execution_error_message_follows_rendered_bytes_witness :
    (main fragment { sampleWorld with readFile := fun _ => .ok "\x7b\x7b.Total\x7d\x7d" }
        (.run ⟨"", "", false⟩)).proc.stdout =
      "" ++ ("Error rendering template:" ++ " " ++
        "can\x27t evaluate field Total in type main.Ticket" ++ "\n") ∧
    (main fragment { sampleWorld with readFile := fun _ => .ok "\x7b\x7b.Total\x7d\x7d" }
        (.run ⟨"", "", false⟩)).proc.stderr = "" :=
  execution_error_message_follows_rendered_bytes fragment
    { sampleWorld with readFile := fun _ => .ok "\x7b\x7b.Total\x7d\x7d" } ⟨"", "", false⟩
    "/home/pos/default_template" "\x7b\x7b.Total\x7d\x7d" [Node.field ["Total"]] ""
    "can\x27t evaluate field Total in type main.Ticket"
    (Or.inr ⟨rfl, "/home/pos", rfl, by decide⟩) (by rfl) (by rfl) (by rfl)

/-! ## Flags without effect -/

/-- C9: the values of `--output` and `--verbose` do not influence a run: for
every template path, file system, home directory and clock reading, two runs
that differ only in these two flags end in the same state with the same exit
code; in particular they hand the same path to the parser and write the same
bytes to standard output. -/
theorem output_and_verbose_flags_are_ignored (E : Engine) (w : World)
    (templatePath output1 output2 : String) (verbose1 verbose2 : Bool) :
    main E w (.run ⟨templatePath, output1, verbose1⟩) =
      main E w (.run ⟨templatePath, output2, verbose2⟩) ∧
    (main E w (.run ⟨templatePath, output1, verbose1⟩)).proc.parsed =
      (main E w (.run ⟨templatePath, output2, verbose2⟩)).proc.parsed ∧
    (main E w (.run ⟨templatePath, output1, verbose1⟩)).proc.stdout =
      (main E w (.run ⟨templatePath, output2, verbose2⟩)).proc.stdout ∧
    (main E w (.run ⟨templatePath, output1, verbose1⟩)).code =
      (main E w (.run ⟨templatePath, output2, verbose2⟩)).code :=
  ⟨rfl, rfl, rfl, rfl⟩

/-! ## The ticket -/

/-- C6: the tickets built at any two clock readings agree on every field
except `Time`; and when the two readings have the same hour, minute and
second the tickets are equal, so that executing any template of any engine
against them writes the same bytes and returns the same error. -/
theorem createTicket_depends_on_clock_time_only :
    (∀ t1 t2 : Time,
      (createTicket t1).LoginUser = (createTicket t2).LoginUser ∧
      (createTicket t1).Terminal = (createTicket t2).Terminal ∧
      (createTicket t1).Date = (createTicket t2).Date ∧
      (createTicket t1).PaymentDate = (createTicket t2).PaymentDate ∧
      (createTicket t1).PaymentTime = (createTicket t2).PaymentTime ∧
      (createTicket t1).PaymentType = (createTicket t2).PaymentType ∧
      (createTicket t1).Tag = (createTicket t2).Tag ∧
      (createTicket t1).Payments = (createTicket t2).Payments ∧
      (createTicket t1).Orders = (createTicket t2).Orders) ∧
    (∀ t1 t2 : Time, t1.hour = t2.hour → t1.minute = t2.minute → t1.second = t2.second →
      createTicket t1 = createTicket t2 ∧
      ∀ (E : Engine) (tmpl : E.Template),
        E.execute tmpl (createTicket t1) = E.execute tmpl (createTicket t2)) := by
  refine ⟨fun t1 t2 => ⟨rfl, rfl, rfl, rfl, rfl, rfl, rfl, rfl, rfl⟩, ?_⟩
  intro t1 t2 hh hm hs
  have heq : createTicket t1 = createTicket t2 := by
    simp only [createTicket, Time.formatClock, hh, hm, hs]
  exact ⟨heq, fun E tmpl => by rw [heq]⟩

/-- Witness of C6: two readings on different days and in different zones
that both show 09:05:07. -/
theorem createTicket_depends_on_clock_time_only_witness :
    morning ≠ otherMorning ∧
    createTicket morning = createTicket otherMorning ∧
    ∀ (E : Engine) (tmpl : E.Template),
      E.execute tmpl (createTicket morning) = E.execute tmpl (createTicket otherMorning) :=
  ⟨by decide, createTicket_depends_on_clock_time_only.2 morning otherMorning rfl rfl rfl⟩

/-- The text of a clock time is never empty. -/
theorem formatClock_ne_empty (t : Time) : t.formatClock ≠ "" := by
  intro h
  have hlen := congrArg String.length h
  have hcolon : (":" : String).length = 1 := rfl
  simp [Time.formatClock, String.length_append, hcolon] at hlen

/-- C10: for every clock reading, every field of the ticket returned by
`createTicket` is populated: the seven string fields are not empty, `Tag.Pax`
is not zero and `Tag.PaxTime` is not the zero time, `Payments` and `Orders`
are not empty, every payment has a non-empty `Name` and `Tendered`, a
non-zero `RefNo` and a non-zero `RefTime`, and every order has a non-empty
`Name`, `Quantity` and `Price`. -/
theorem createTicket_fully_populated (now : Time) :
    (createTicket now).LoginUser ≠ "" ∧
    (createTicket now).Terminal ≠ "" ∧
    (createTicket now).Date ≠ "" ∧
    (createTicket now).Time ≠ "" ∧
    (createTicket now).PaymentDate ≠ "" ∧
    (createTicket now).PaymentTime ≠ "" ∧
    (createTicket now).PaymentType ≠ "" ∧
    (createTicket now).Tag.Pax ≠ 0 ∧
    (createTicket now).Tag.PaxTime.isZero = false ∧
    (createTicket now).Payments ≠ [] ∧
    (createTicket now).Orders ≠ [] ∧
    (∀ p ∈ (createTicket now).Payments,
      p.Name ≠ "" ∧ p.Tendered ≠ "" ∧ p.PaymentInformation.RefNo ≠ 0 ∧
      p.PaymentInformation.RefTime.isZero = false) ∧
    (∀ o ∈ (createTicket now).Orders, o.Name ≠ "" ∧ o.Quantity ≠ "" ∧ o.Price ≠ "") := by
  refine ⟨?_, ?_, ?_, formatClock_ne_empty now, ?_, ?_, ?_, ?_, ?_, ?_, ?_, ?_, ?_⟩
  · show "betasve" ≠ ""
    decide
  · show "pos terminal" ≠ ""
    decide
  · show (timeDate 2024 october 31 0 0 0 0 Location.utc).formatDate ≠ ""
    decide
  · show (timeDate 2024 october 31 17 35 24 0 (fixedZone "GMT" 2)).formatDate ≠ ""
    decide
  · show (timeDate 2024 october 31 17 35 24 0 (fixedZone "GMT" 2)).formatClock ≠ ""
    decide
  · show "credit_card" ≠ ""
    decide
  · show (100 : Int) ≠ 0
    decide
  · show (timeDate 2024 october 31 17 35 24 0 (fixedZone "GMT" 2)).isZero = false
    decide
  · simp [createTicket]
  · simp [createTicket]
  · intro p hp
    have hp1 : p = ⟨"Payment 1", "is tendered",
        ⟨101, timeDate 2024 october 31 17 35 24 0 (fixedZone "GMT" 2)⟩⟩ := by
      simpa [createTicket] using hp
    subst hp1
    decide
  · intro o ho
    have ho1 : o = ⟨"Fried beans", "3", "1.99"⟩ := by
      simpa [createTicket] using ho
    subst ho1
    decide

/-! ## Rendered output -/

set_option maxRecDepth 8000

end PosPrinter
